import Mathlib

/-!
Shallow embedding of the transient-workspace core of `github-pr-tool`
(`src/git_temp_worktree.rs` and `src/git_ops.rs`), together with theorems
settling the specification claims about it.

External effects (the `git` binary, the filesystem, the process working
directory) are modelled explicitly: each embedded function takes an oracle
recording the outcome of every external call it makes, threads an explicit
state, and returns the trace of commands it issued, so that control flow,
error propagation and state updates mirror the Rust source line by line.

String manipulation from the source is embedded over `List Char` (via
`String.data`) so that every definition evaluates inside the kernel.
-/

deriving instance DecidableEq for Except

namespace GhAutopr

/-! ## Bytes and directory entries -/

/-- A file's raw bytes (`Vec<u8>` in the source). -/
abbrev Bytes := List Nat

/-- One entry of the patch-cache scratch directory, as observed by
`fs_err::read_dir`: its file name, whether it is a regular file, and the
bytes `fs_err::read` would return for it. -/
structure DirEntry where
  name : String
  isFile : Bool
  content : Bytes
deriving Repr, DecidableEq

/-! ## String helpers embedded from the Rust standard library calls the
source makes on file names. -/

/-- Embeds `str::split(sep)`: splitting on a separator character, keeping
empty segments, so that a string with `n` separators yields `n + 1`
segments. -/
def splitChar (sep : Char) (cs : List Char) : List (List Char) :=
  match cs with
  | [] => [[]]
  | c :: rest =>
    let r := splitChar sep rest
    if c = sep then [] :: r
    else
      match r with
      | [] => [[c]]
      | h :: t => (c :: h) :: t

/-- Embeds `str::parse::<u64>`: an optional leading `+`, then one or more
ASCII digits, rejecting the empty string and values that overflow `u64`. -/
def parseU64 (cs : List Char) : Option Nat :=
  let t := match cs with
    | '+' :: rest => rest
    | _ => cs
  if t.isEmpty then none
  else if t.all Char.isDigit then
    let n := t.foldl (fun acc c => acc * 10 + (c.toNat - 48)) 0
    if n < 2 ^ 64 then some n else none
  else none

/-- Embeds `Path::extension` on a bare file name: the part after the last
`.`, and `none` when there is no `.` at all or the only `.` is the leading
dot of a hidden file. -/
def fileExtension (name : List Char) : Option (List Char) :=
  match splitChar '.' name with
  | [] => none
  | [_] => none
  | [[], _] => none
  | parts => parts.getLast?

/-- Embeds `filename.split('-').nth(1).and_then(|s| s.split('.').next())`
from `try_reuse_recent_patches`: the second `-`-separated field, cut at
its first `.`. -/
def timestampField (filename : List Char) : Option (List Char) :=
  ((splitChar '-' filename).get? 1).map (fun s => (splitChar '.' s).headI)

/-- The timestamp a cache file name encodes: `timestampField` parsed as a
`u64`. -/
def nameTimestamp (filename : List Char) : Option Nat :=
  (timestampField filename).bind parseU64

/-! ## PatchCache: `try_reuse_recent_patches` (git_temp_worktree.rs:10-54) -/

/-- `PATCH_REUSE_THRESHOLD_SECS` (git_temp_worktree.rs:18). -/
def PATCH_REUSE_THRESHOLD_SECS : Nat := 10

/-- Checked `u64` subtraction: Rust's `now - timestamp` under overflow
checks, which panics (modelled as `none`) when the subtrahend exceeds the
minuend. -/
def checkedSub (a b : Nat) : Option Nat :=
  if b ≤ a then some (a - b) else none

/-- The body of the `for entry in entries` loop of
`try_reuse_recent_patches` (git_temp_worktree.rs:25-50), acting on the
accumulated `(staged_patch, unstaged_patch)` pair. A panic of the checked
subtraction aborts the whole scan, modelled as `Except.error`. -/
def processEntry (now : Nat) (acc : Bytes × Bytes) (e : DirEntry) :
    Except String (Bytes × Bytes) :=
  if e.isFile && (fileExtension e.name.data == some "patch".data) then
    match timestampField e.name.data with
    | none => Except.ok acc
    | some tsStr =>
      match parseU64 tsStr with
      | none => Except.ok acc
      | some timestamp =>
        match checkedSub now timestamp with
        | none => Except.error "attempt to subtract with overflow"
        | some age =>
          if age ≤ PATCH_REUSE_THRESHOLD_SECS then
            if "staged-".data.isPrefixOf e.name.data then Except.ok (e.content, acc.2)
            else if "unstaged-".data.isPrefixOf e.name.data then Except.ok (acc.1, e.content)
            else Except.ok acc
          else Except.ok acc
  else Except.ok acc

/-- `try_reuse_recent_patches` (git_temp_worktree.rs:10-54): when the
scratch directory exists, scan its entries in order, keeping the bytes of
every fresh `staged-`/`unstaged-` patch file; otherwise return two empty
byte vectors. -/
def try_reuse_recent_patches (dirExists : Bool) (now : Nat)
    (entries : List DirEntry) : Except String (Bytes × Bytes) :=
  if dirExists then entries.foldlM (processEntry now) ([], [])
  else Except.ok ([], [])

/-- Lines 99-109 of git_temp_worktree.rs: `enter()` falls back to a fresh
capture exactly when BOTH cached halves came back empty; otherwise it
keeps the cached pair as is. -/
def snapshotPatches (cachedStaged cachedUnstaged freshStaged freshUnstaged : Bytes) :
    Bytes × Bytes :=
  if cachedStaged.isEmpty && cachedUnstaged.isEmpty then (freshStaged, freshUnstaged)
  else (cachedStaged, cachedUnstaged)

/-! ## Branch fallback chain (git_temp_worktree.rs:146-190) -/

/-- Tier (a): `git switch --force --ignore-other-worktrees <branch>`
(git_temp_worktree.rs:146-154). -/
def switchDirectArgs (b : String) : List String :=
  ["switch", "--force", "--ignore-other-worktrees", b]

/-- Tier (b): `git switch --force --ignore-other-worktrees -c <branch>
--track origin/<branch>` (git_temp_worktree.rs:156-170). -/
def switchTrackArgs (b : String) : List String :=
  ["switch", "--force", "--ignore-other-worktrees", "-c", b, "--track", "origin/" ++ b]

/-- Tier (c): `git switch --force --ignore-other-worktrees -c <branch>`
(git_temp_worktree.rs:172-190). -/
def switchOrphanArgs (b : String) : List String :=
  ["switch", "--force", "--ignore-other-worktrees", "-c", b]

/-- The three-tier branch selection of `enter()`
(git_temp_worktree.rs:146-190): run tier (a); on failure run tier (b); on
failure run tier (c); error when all three fail. `run` is the oracle
giving each `git switch` invocation's exit status; the returned list is
the trace of invocations actually made, in order. -/
def selectBranch (run : List String → Bool) (b : String) :
    List (List String) × Except String Unit :=
  if run (switchDirectArgs b) then ([switchDirectArgs b], Except.ok ())
  else if run (switchTrackArgs b) then
    ([switchDirectArgs b, switchTrackArgs b], Except.ok ())
  else if run (switchOrphanArgs b) then
    ([switchDirectArgs b, switchTrackArgs b, switchOrphanArgs b], Except.ok ())
  else
    ([switchDirectArgs b, switchTrackArgs b, switchOrphanArgs b],
      Except.error ("failed to switch to temp branch " ++ b))

/-! ## Snapshot replay (git_temp_worktree.rs:192-255) -/

/-- The mutable state of a checkout: its index and its working tree, each
a finite map from path to file bytes. -/
structure WtState where
  index : List (String × Bytes)
  files : List (String × Bytes)
deriving Repr, DecidableEq

/-- Oracle for the external `git apply` subprocess: what a given patch
does to the side of the checkout it is aimed at (`none` = the patch does
not apply). -/
structure GitApplyModel where
  applyToIndex : Bytes → List (String × Bytes) → Option (List (String × Bytes))
  applyToFiles : Bytes → List (String × Bytes) → Option (List (String × Bytes))

/-- Models the `git apply` invocation of the replay step: with `--cached`
the patch acts on the index only, without the flag on the working tree
only (git's documented CLI semantics; which flag is passed is the
repository's code, the patch's action on the chosen side is the
oracle's). -/
def gitApply (m : GitApplyModel) (cached : Bool) (patch : Bytes) (st : WtState) :
    Option WtState :=
  if cached then (m.applyToIndex patch st.index).map (fun i => { st with index := i })
  else (m.applyToFiles patch st.files).map (fun f => { st with files := f })

/-- Step 6a (git_temp_worktree.rs:195-204): a non-empty staged patch is
piped into `git apply --cached -`; failure is fatal. -/
def applyStagedStep (m : GitApplyModel) (staged : Bytes) (st : WtState) :
    Except String WtState :=
  if staged.isEmpty then Except.ok st
  else
    match gitApply m true staged st with
    | some st1 => Except.ok st1
    | none => Except.error "failed to apply staged patch"

/-- Step 6b (git_temp_worktree.rs:207-216): a non-empty unstaged patch is
piped into `git apply -`; failure is fatal. -/
def applyUnstagedStep (m : GitApplyModel) (unstaged : Bytes) (st : WtState) :
    Except String WtState :=
  if unstaged.isEmpty then Except.ok st
  else
    match gitApply m false unstaged st with
    | some st1 => Except.ok st1
    | none => Except.error "failed to apply unstaged patch"

/-- Write a file into a path-to-bytes map (the effect of `fs_err::copy`
into the temp worktree). -/
def setFile (fs : List (String × Bytes)) (p : String) (content : Bytes) :
    List (String × Bytes) :=
  if fs.any (fun e => e.1 = p) then fs.map (fun e => if e.1 = p then (p, content) else e)
  else fs ++ [(p, content)]

/-- The warning printed when an untracked file's source no longer exists
under the original root (git_temp_worktree.rs:227-231). -/
def missingWarning (p : String) : String :=
  "Warning: Skipping untracked file copy - source does not exist: " ++ p

/-- The warning printed when creating directories or copying the file
fails (git_temp_worktree.rs:235-253). -/
def copyFailedWarning (p : String) : String :=
  "Warning: Failed to copy untracked file: " ++ p

/-- The untracked path list as produced by `ls-files -z`: NUL-separated,
empty segments filtered out (git_temp_worktree.rs:220). -/
def untrackedPaths (untrackedList : String) : List String :=
  ((splitChar (Char.ofNat 0) untrackedList.data).map (fun cs => String.mk cs)).filter
    (fun p => p ≠ "")

/-- Step 6c (git_temp_worktree.rs:219-255): copy each untracked path from
the original root into the temp worktree; a missing source or a failed
copy produces a warning and skips the path, never an error. `origFile`
reads under the original root; `copyOk` is the oracle for directory
creation plus copy succeeding. Returns the updated worktree files and the
warnings in emission order. -/
def copyUntracked (origFile : String → Option Bytes) (copyOk : String → Bool) :
    List String → WtState → WtState × List String
  | [], st => (st, [])
  | p :: rest, st =>
    match origFile p with
    | none =>
      let r := copyUntracked origFile copyOk rest st
      (r.1, missingWarning p :: r.2)
    | some content =>
      if copyOk p then
        copyUntracked origFile copyOk rest { st with files := setFile st.files p content }
      else
        let r := copyUntracked origFile copyOk rest st
        (r.1, copyFailedWarning p :: r.2)

/-- Step 6 of `enter()` (git_temp_worktree.rs:192-255): replay the
captured dirty state inside the temp worktree — staged patch into the
index, unstaged patch into the working tree, then the untracked-file
copies. -/
def replaySnapshot (m : GitApplyModel) (staged unstaged : Bytes)
    (untrackedList : String) (origFile : String → Option Bytes)
    (copyOk : String → Bool) (st : WtState) :
    Except String (WtState × List String) :=
  match applyStagedStep m staged st with
  | Except.error e => Except.error e
  | Except.ok st1 =>
    match applyUnstagedStep m unstaged st1 with
    | Except.error e => Except.error e
    | Except.ok st2 =>
      if untrackedList.isEmpty then Except.ok (st2, [])
      else Except.ok (copyUntracked origFile copyOk (untrackedPaths untrackedList) st2)

/-! ## `enter()` after the snapshot: registration, branch chain, replay
(git_temp_worktree.rs:118-263) -/

/-- The externally visible footprint of the secondary checkout: whether it
is registered in git's worktree registry, whether its directory exists on
disk, and the process working directory. -/
structure WorktreeFootprint where
  registered : Bool
  dirExists : Bool
  cwd : String
deriving Repr, DecidableEq

/-- Oracle for the external calls `enter()` makes once the snapshot is in
hand: the exit status of `git worktree add`, the exit status of each `git
switch` attempt, and the patch-application model for the replay. -/
structure EnterOracle where
  worktreeAddOk : Bool
  run : List String → Bool
  applyModel : GitApplyModel

/-- `enter()` from step 3 onward (git_temp_worktree.rs:125-263): register
the detached worktree (`git worktree add`; a failure here is fatal but
nothing was created), hop into the new directory, run the branch fallback
chain, then replay the snapshot. The source returns every post-registration
error directly with no cleanup code on those paths; the `TempWorktree`
guard whose `Drop` deregisters the worktree is only constructed after full
success (line 258), so on these error paths the registration and the
directory survive in the returned footprint. -/
def enterAfterSnapshot (o : EnterOracle) (path origBranch : String)
    (staged unstaged : Bytes) (untrackedList : String)
    (origFile : String → Option Bytes) (copyOk : String → Bool)
    (fp : WorktreeFootprint) (wt : WtState) :
    Except String (String × String) × WorktreeFootprint :=
  if o.worktreeAddOk = false then
    (Except.error "git worktree add failed", fp)
  else
    let fp1 : WorktreeFootprint := { registered := true, dirExists := true, cwd := path }
    match (selectBranch o.run origBranch).2 with
    | Except.error e => (Except.error e, fp1)
    | Except.ok _ =>
      match replaySnapshot o.applyModel staged unstaged untrackedList origFile copyOk wt with
      | Except.error e => (Except.error e, fp1)
      | Except.ok _ => (Except.ok (path, origBranch), fp1)

/-! ## Teardown: `Drop for TempWorktree` (git_temp_worktree.rs:271-296) -/

/-- The four teardown actions, in source order. -/
inductive DropStep where
  | restoreCwd
  | switchBack
  | removeWorktree
  | removeDir
deriving Repr, DecidableEq

/-- Oracle for the destructor's external calls: whether restoring the
working directory succeeds, the result of `git symbolic-ref --quiet HEAD`
(`none` = the subprocess could not be run at all), and the exit statuses
of the branch switch, the worktree removal and the directory removal. -/
structure DropOracle where
  chdirOk : Bool
  symbolicRefStatus : Option Bool
  switchOk : Bool
  worktreeRemoveOk : Bool
  removeDirOk : Bool
deriving Repr, DecidableEq

/-- The detached-HEAD test of the destructor (git_temp_worktree.rs:277-281):
`status().map(|s| !s.success()).unwrap_or(false)`. -/
def isDetachedCheck (o : DropOracle) : Bool :=
  match o.symbolicRefStatus with
  | none => false
  | some ok => !ok

/-- `Drop for TempWorktree` (git_temp_worktree.rs:271-296): restore the
working directory, switch back to the original branch when detached,
force-remove the worktree registration, remove the directory. Every
external result is discarded (`let _ = ...`), so the function is total:
it returns the final footprint plus the ordered list of steps attempted
and cannot surface an error. -/
def dropTempWorktree (o : DropOracle) (origRoot : String)
    (fp : WorktreeFootprint) : WorktreeFootprint × List DropStep :=
  let fp1 := if o.chdirOk then { fp with cwd := origRoot } else fp
  let fp2 :=
    if o.worktreeRemoveOk then { fp1 with registered := false, dirExists := false }
    else fp1
  let fp3 := if o.removeDirOk then { fp2 with dirExists := false } else fp2
  (fp3,
    DropStep.restoreCwd ::
      ((if isDetachedCheck o then [DropStep.switchBack] else []) ++
        [DropStep.removeWorktree, DropStep.removeDir]))

/-- RAII semantics of the guard (spec 4.3 / Rust `Drop`): when the scope
owning an Active handle exits — normally or by error unwind — the
destructor runs exactly once, after the body, and the body's outcome is
returned unchanged. -/
def runWithTeardown {α : Type} (body : Except String α) (o : DropOracle)
    (origRoot : String) (fp : WorktreeFootprint) :
    Except String α × WorktreeFootprint × List DropStep :=
  (body, dropTempWorktree o origRoot fp)

/-! ## DirtyStateCapture: `get_unstaged_patch_if_exists` (git_ops.rs:758-772) -/

/-- Oracle for the two diff subprocesses: whether `git diff --quiet`
exits unsuccessfully (that is, reports that the working tree differs from
the index), and the bytes `git diff --binary` would print. -/
structure UnstagedDiffOracle where
  quietReportsChanges : Bool
  diffBinaryOut : Bytes
deriving Repr, DecidableEq

/-- `get_unstaged_patch_if_exists` (git_ops.rs:758-772), returning the
patch together with the trace of git invocations made: the quiet presence
check always runs; the binary diff runs only when the check reported
differences, otherwise the result is the empty patch. -/
def get_unstaged_patch_if_exists (o : UnstagedDiffOracle) :
    Bytes × List (List String) :=
  if o.quietReportsChanges then
    (o.diffBinaryOut, [["diff", "--quiet"], ["diff", "--binary"]])
  else ([], [["diff", "--quiet"]])

/-! ## ReconciliationPolicy: `update_original_worktree_to_pr_branch`
(git_ops.rs:985-1176) -/

/-- A git invocation together with the process working directory it was
issued from. -/
structure GitCmd where
  cwd : String
  args : List String
deriving Repr, DecidableEq

/-- Embeds `str::trim`: whitespace stripped from both ends. -/
def trimChars (cs : List Char) : List Char :=
  ((cs.dropWhile Char.isWhitespace).reverse.dropWhile Char.isWhitespace).reverse

/-- Whether `needle` occurs as a contiguous subsequence of `hay`
(embeds `str::contains`). -/
def containsSeq (needle : List Char) : List Char → Bool
  | [] => needle.isEmpty
  | c :: t => needle.isPrefixOf (c :: t) || containsSeq needle t

/-- Oracle for the external calls `update_original_worktree_to_pr_branch`
makes: exit statuses and outputs of each git invocation, in source
order. -/
structure UpdateOracle where
  revParseVerifyOk : Bool
  statusPorcelain : String
  stashPushOk : Bool
  checkoutOk : Bool
  fetchOk : Bool
  createTrackOk : Bool
  checkoutFetchedOk : Bool
  pullRebaseOk : Bool
  pullRebaseStderr : String
  pullFallbackOk : Bool
  stashListOut : String

/-- The stash message used for the temporary stash (git_ops.rs:1028). -/
def stashMessage : String := "gh-autopr: temp stash for branch checkout"

/-- The pull phase of `update_original_worktree_to_pr_branch`
(git_ops.rs:1103-1175): `git pull --rebase origin <pr>`, falling back to a
plain pull when the stderr mentions a rebase or a conflict; every pull
failure is a warning, never an error; finally the stash list is queried
for the log message. Returns the git invocations made, appended to `t`. -/
def updatePullPhase (o : UpdateOracle) (prBranch : String)
    (t : List (List String)) : Except String Unit × List (List String) :=
  let t1 := t ++ [["pull", "--rebase", "origin", prBranch]]
  let t2 :=
    if o.pullRebaseOk then t1
    else
      if containsSeq "rebase".data o.pullRebaseStderr.data ||
          containsSeq "conflict".data o.pullRebaseStderr.data then
        t1 ++ [["pull", "origin", prBranch]]
      else t1
  (Except.ok (), t2 ++ [["stash", "list", "--grep=" ++ stashMessage]])

/-- The closure body of `update_original_worktree_to_pr_branch`
(git_ops.rs:996-1170), which runs after the working directory has been
switched to the original root and issues no directory change itself:
check whether the PR branch exists locally; if so, stash any local
changes and check it out; otherwise fetch it from origin (or create a
tracking branch when the fetch fails) and check it out; then pull. -/
def updateClosure (o : UpdateOracle) (prBranch : String) :
    Except String Unit × List (List String) :=
  let t0 := [["rev-parse", "--verify", prBranch]]
  if o.revParseVerifyOk then
    let t1 := t0 ++ [["status", "--porcelain"]]
    let hasLocalChanges := !(trimChars o.statusPorcelain.data).isEmpty
    let afterStash : Except String Unit × List (List String) :=
      if hasLocalChanges then
        let t2 := t1 ++ [["stash", "push", "-m", stashMessage]]
        if !o.stashPushOk then (Except.error "Failed to stash local changes", t2)
        else (Except.ok (), t2)
      else (Except.ok (), t1)
    match afterStash with
    | (Except.error e, t) => (Except.error e, t)
    | (Except.ok _, t) =>
      let t3 := t ++ [["checkout", prBranch]]
      if !o.checkoutOk then (Except.error "Failed to checkout existing PR branch", t3)
      else updatePullPhase o prBranch t3
  else
    let t1 := t0 ++ [["fetch", "origin", prBranch ++ ":" ++ prBranch]]
    if !o.fetchOk then
      let t2 := t1 ++ [["checkout", "-b", prBranch, "origin/" ++ prBranch]]
      if !o.createTrackOk then (Except.error "Failed to create tracking branch", t2)
      else updatePullPhase o prBranch t2
    else
      let t2 := t1 ++ [["checkout", prBranch]]
      if !o.checkoutFetchedOk then (Except.error "Failed to checkout fetched PR branch", t2)
      else updatePullPhase o prBranch t2

/-- `update_original_worktree_to_pr_branch` (git_ops.rs:985-1176): record
the current directory, switch to the original root, run the closure — all
of whose git invocations are therefore issued from the original root,
since the closure contains no directory change — then switch back to the
recorded directory on every return path and hand the closure's result
through unchanged. Returns the result, the final working directory, and
the trace of git invocations tagged with the directory each was issued
from. -/
def update_original_worktree_to_pr_branch (o : UpdateOracle)
    (prBranch origRoot : String) (cwd0 : String) :
    Except String Unit × String × List GitCmd :=
  let currentDir := cwd0
  let inner := updateClosure o prBranch
  (inner.1, currentDir, inner.2.map (fun args => GitCmd.mk origRoot args))

/-! ## Theorems -/

/-- Helper: `processEntry` on a well-formed `{kind}-{ts}.patch` file entry
reduces to the freshness test followed by the kind dispatch. -/
theorem processEntry_wellformed (now ts : Nat) (acc : Bytes × Bytes) (e : DirEntry)
    (hfile : e.isFile = true)
    (hext : fileExtension e.name.data = some "patch".data)
    (hparse : nameTimestamp e.name.data = some ts)
    (hts : ts ≤ now) :
    processEntry now acc e =
      if now - ts ≤ PATCH_REUSE_THRESHOLD_SECS then
        (if "staged-".data.isPrefixOf e.name.data then Except.ok (e.content, acc.2)
         else if "unstaged-".data.isPrefixOf e.name.data then Except.ok (acc.1, e.content)
         else Except.ok acc)
      else Except.ok acc := by
  obtain ⟨s, hs, hp⟩ := Option.bind_eq_some.mp hparse
  unfold processEntry
  simp only [hfile, hext, hs, hp, beq_self_eq_true, Bool.and_self, if_true]
  simp [checkedSub, hts]

/-- C7: for every well-formed cached patch file name `{kind}-{ts}.patch`
with a timestamp not in the future, scanning a directory holding exactly
that file reuses its bytes exactly when `now - ts ≤ 10` seconds; the
staged and unstaged kinds land in the corresponding snapshot half. -/
theorem cache_freshness_boundary (now ts : Nat) (c : Bytes) (name : String)
    (hts : ts ≤ now)
    (hext : fileExtension name.data = some "patch".data)
    (hparse : nameTimestamp name.data = some ts) :
    ("staged-".data.isPrefixOf name.data = true →
       try_reuse_recent_patches true now [⟨name, true, c⟩] =
         Except.ok (if now - ts ≤ 10 then (c, []) else ([], []))) ∧
    ("staged-".data.isPrefixOf name.data = false →
     "unstaged-".data.isPrefixOf name.data = true →
       try_reuse_recent_patches true now [⟨name, true, c⟩] =
         Except.ok (if now - ts ≤ 10 then ([], c) else ([], []))) := by
  have h := processEntry_wellformed now ts ([], []) ⟨name, true, c⟩ rfl hext hparse hts
  constructor
  · intro hpre
    rw [hpre] at h
    simp only [try_reuse_recent_patches, List.foldlM, h, PATCH_REUSE_THRESHOLD_SECS]
    by_cases hage : now - ts ≤ 10 <;> simp [hage]
  · intro hpre1 hpre2
    rw [hpre1, hpre2] at h
    simp only [try_reuse_recent_patches, List.foldlM, h, PATCH_REUSE_THRESHOLD_SECS]
    by_cases hage : now - ts ≤ 10 <;> simp [hage]

/-- Witness for C7, at the claim's own boundary: with `now = 100`, a
staged cache file stamped `90` (age ten seconds) is reused and one stamped
`89` (age eleven seconds) is not. -/
theorem cache_freshness_boundary_witness :
    try_reuse_recent_patches true 100 [⟨"staged-90.patch", true, [1, 2]⟩] =
        Except.ok ([1, 2], []) ∧
    try_reuse_recent_patches true 100 [⟨"staged-89.patch", true, [1, 2]⟩] =
        Except.ok ([], []) := by
  constructor
  · have h := (cache_freshness_boundary 100 90 [1, 2] "staged-90.patch"
      (by decide) (by decide) (by decide)).1 (by decide)
    simpa using h
  · have h := (cache_freshness_boundary 100 89 [1, 2] "staged-89.patch"
      (by decide) (by decide) (by decide)).1 (by decide)
    simpa using h

/-- C9: a well-formed cached patch file whose encoded timestamp lies
strictly in the future makes the scan's checked `now - timestamp`
subtraction underflow, so `try_reuse_recent_patches` aborts with an error
instead of skipping the file: it is not total over well-formed directory
contents. -/
theorem cache_future_timestamp_aborts (now ts : Nat) (c : Bytes) (name : String)
    (hgt : now < ts)
    (hext : fileExtension name.data = some "patch".data)
    (hparse : nameTimestamp name.data = some ts) :
    try_reuse_recent_patches true now [⟨name, true, c⟩] =
      Except.error "attempt to subtract with overflow" := by
  obtain ⟨s, hs, hp⟩ := Option.bind_eq_some.mp hparse
  simp only [try_reuse_recent_patches, List.foldlM, if_true]
  unfold processEntry
  simp [hext, hs, hp, checkedSub, Nat.not_le.mpr hgt]

/-- Witness for C9: with `now = 100`, a directory holding
`staged-101.patch` makes the scan abort. -/
theorem cache_future_timestamp_aborts_witness :
    try_reuse_recent_patches true 100 [⟨"staged-101.patch", true, [1]⟩] =
      Except.error "attempt to subtract with overflow" :=
  cache_future_timestamp_aborts 100 101 [1] "staged-101.patch"
    (by decide) (by decide) (by decide)

/-- C3 counterexample: with a cache holding only a fresh staged file (so
the cached pair is `([1], [])`) and a fresh capture that would produce a
non-empty unstaged half `[2]`, `enter()`'s snapshot step keeps the cached
pair unchanged: the unstaged half stays empty instead of being freshly
captured, refuting the per-half fallback. -/
theorem snapshot_fallback_not_per_half :
    try_reuse_recent_patches true 100 [⟨"staged-95.patch", true, [1]⟩] =
        Except.ok ([1], []) ∧
    snapshotPatches [1] [] [9] [2] = ([1], []) ∧
    (snapshotPatches [1] [] [9] [2]).2 ≠ [2] := by decide

/-- C3 amended: the fallback is all-or-nothing — the fresh capture of both
halves is used exactly when both cached halves are empty; as soon as one
cached half is non-empty, both halves are taken from the cache result and
the missing one is left empty. -/
theorem snapshot_fallback_all_or_nothing (cs cu fs fu : Bytes) :
    (cs = [] ∧ cu = [] → snapshotPatches cs cu fs fu = (fs, fu)) ∧
    (cs ≠ [] ∨ cu ≠ [] → snapshotPatches cs cu fs fu = (cs, cu)) := by
  unfold snapshotPatches
  cases cs <;> cases cu <;> simp_all

/-- Witness for the amended C3: an empty cache pair falls back to the
fresh capture, while a cache pair with only the staged half keeps it. -/
theorem snapshot_fallback_all_or_nothing_witness :
    snapshotPatches [] [] [9] [2] = ([9], [2]) ∧
    snapshotPatches [1] [] [9] [2] = ([1], []) := by
  constructor
  · exact (snapshot_fallback_all_or_nothing [] [] [9] [2]).1 ⟨rfl, rfl⟩
  · exact (snapshot_fallback_all_or_nothing [1] [] [9] [2]).2 (Or.inl (by decide))

/-- Helper: the tier (b) invocation differs from tier (a)'s. -/
theorem switchTrack_ne_direct (b : String) : switchTrackArgs b ≠ switchDirectArgs b := by
  simp [switchTrackArgs, switchDirectArgs]

/-- Helper: the tier (c) invocation differs from tier (a)'s. -/
theorem switchOrphan_ne_direct (b : String) : switchOrphanArgs b ≠ switchDirectArgs b := by
  simp [switchOrphanArgs, switchDirectArgs]

/-- Helper: the tier (c) invocation differs from tier (b)'s. -/
theorem switchOrphan_ne_track (b : String) : switchOrphanArgs b ≠ switchTrackArgs b := by
  simp [switchOrphanArgs, switchTrackArgs]

/-- C4: the three-tier branch fallback chain of `enter()`, first success
wins — the direct force-switch is always attempted first, the remote
tracking attempt runs exactly when the direct one failed, the history-less
branch creation exactly when both earlier tiers failed, only these three
invocations are ever made, and a branch-selection error is returned
exactly when all three attempts fail. -/
theorem branch_fallback_chain (run : List String → Bool) (b : String) :
    ((selectBranch run b).1.head? = some (switchDirectArgs b)) ∧
    (switchTrackArgs b ∈ (selectBranch run b).1 ↔ run (switchDirectArgs b) = false) ∧
    (switchOrphanArgs b ∈ (selectBranch run b).1 ↔
      run (switchDirectArgs b) = false ∧ run (switchTrackArgs b) = false) ∧
    (∀ args ∈ (selectBranch run b).1,
      args = switchDirectArgs b ∨ args = switchTrackArgs b ∨ args = switchOrphanArgs b) ∧
    ((selectBranch run b).2 = Except.ok () ↔
      (run (switchDirectArgs b) = true ∨ run (switchTrackArgs b) = true ∨
       run (switchOrphanArgs b) = true)) ∧
    ((selectBranch run b).2 = Except.error ("failed to switch to temp branch " ++ b) ↔
      (run (switchDirectArgs b) = false ∧ run (switchTrackArgs b) = false ∧
       run (switchOrphanArgs b) = false)) := by
  by_cases h1 : run (switchDirectArgs b) <;>
    by_cases h2 : run (switchTrackArgs b) <;>
      by_cases h3 : run (switchOrphanArgs b) <;>
        simp [selectBranch, h1, h2, h3, switchTrack_ne_direct b,
          switchOrphan_ne_direct b, switchOrphan_ne_track b]

/-- Helper: a path whose source is missing under the original root always
leaves its warning in the untracked-copy step's output. -/
theorem copyUntracked_missing_warn (origFile : String → Option Bytes)
    (copyOk : String → Bool) (paths : List String) (st : WtState) (p : String)
    (hp : p ∈ paths) (hmiss : origFile p = none) :
    missingWarning p ∈ (copyUntracked origFile copyOk paths st).2 := by
  induction paths generalizing st with
  | nil => cases hp
  | cons q rest ih =>
    rcases List.mem_cons.mp hp with rfl | hmem
    · simp [copyUntracked, hmiss]
    · cases hq : origFile q with
      | none => simpa [copyUntracked, hq] using Or.inr (ih _ hmem)
      | some content =>
        by_cases hc : copyOk q
        · simpa [copyUntracked, hq, hc] using ih _ hmem
        · simpa [copyUntracked, hq, hc] using Or.inr (ih _ hmem)

/-- C5: during snapshot replay in `enter()` the staged patch goes through
`git apply --cached`, so the working tree is untouched by that step; a
non-empty staged or unstaged patch that fails to apply makes the replay
(and hence `enter()`) return an error; and an untracked path whose source
no longer exists under the original root is skipped with a warning while
the replay still succeeds. -/
theorem replay_error_policy (m : GitApplyModel) (staged unstaged : Bytes)
    (ul : String) (origFile : String → Option Bytes) (copyOk : String → Bool)
    (st : WtState) :
    (∀ st1, applyStagedStep m staged st = Except.ok st1 → st1.files = st.files) ∧
    (staged ≠ [] → m.applyToIndex staged st.index = none →
      replaySnapshot m staged unstaged ul origFile copyOk st =
        Except.error "failed to apply staged patch") ∧
    (∀ st1, applyStagedStep m staged st = Except.ok st1 → unstaged ≠ [] →
      m.applyToFiles unstaged st1.files = none →
      replaySnapshot m staged unstaged ul origFile copyOk st =
        Except.error "failed to apply unstaged patch") ∧
    (∀ st1 st2, applyStagedStep m staged st = Except.ok st1 →
      applyUnstagedStep m unstaged st1 = Except.ok st2 →
      ∃ out, replaySnapshot m staged unstaged ul origFile copyOk st = Except.ok out ∧
        (∀ p ∈ untrackedPaths ul, origFile p = none → missingWarning p ∈ out.2)) := by
  refine ⟨?_, ?_, ?_, ?_⟩
  · intro st1 h
    unfold applyStagedStep at h
    by_cases hs : staged.isEmpty
    · simp [hs] at h; rw [← h]
    · simp only [hs, if_false] at h
      cases hap : m.applyToIndex staged st.index with
      | none => simp [gitApply, hap] at h
      | some i =>
        simp [gitApply, hap] at h
        rw [← h]
  · intro hne hfail
    unfold replaySnapshot applyStagedStep
    have hs : staged.isEmpty = false := by simpa using hne
    simp [hs, gitApply, hfail]
  · intro st1 h1 hne hfail
    simp only [replaySnapshot, h1]
    unfold applyUnstagedStep
    have hs : unstaged.isEmpty = false := by simpa using hne
    simp [hs, gitApply, hfail]
  · intro st1 st2 h1 h2
    simp only [replaySnapshot, h1, h2]
    by_cases hul : ul.isEmpty
    · refine ⟨(st2, []), by simp [hul], ?_⟩
      intro p hp hmiss
      exfalso
      have : ul = "" := (String.isEmpty_iff ul).mp hul
      rw [this] at hp
      simp [untrackedPaths, splitChar] at hp
    · refine ⟨copyUntracked origFile copyOk (untrackedPaths ul) st2, by simp [hul], ?_⟩
      intro p hp hmiss
      exact copyUntracked_missing_warn origFile copyOk _ st2 p hp hmiss

/-- Witness for C5: a model in which no patch applies makes the replay of
a non-empty staged patch fail fatally, while under an identity patch model
an untracked path with a missing source only produces its warning. -/
theorem replay_error_policy_witness :
    replaySnapshot ⟨fun _ _ => none, fun _ _ => none⟩ [1] [] "" (fun _ => none)
        (fun _ => true) ⟨[], []⟩ = Except.error "failed to apply staged patch" ∧
    ∃ out,
      replaySnapshot ⟨fun _ i => some i, fun _ f => some f⟩ [1] [2] "a" (fun _ => none)
          (fun _ => true) ⟨[], []⟩ = Except.ok out ∧
      missingWarning "a" ∈ out.2 := by
  constructor
  · exact (replay_error_policy ⟨fun _ _ => none, fun _ _ => none⟩ [1] [] "" (fun _ => none)
      (fun _ => true) ⟨[], []⟩).2.1 (by decide) rfl
  · obtain ⟨out, hout, hw⟩ := (replay_error_policy ⟨fun _ i => some i, fun _ f => some f⟩
      [1] [2] "a" (fun _ => none) (fun _ => true) ⟨[], []⟩).2.2.2 ⟨[], []⟩ ⟨[], []⟩ rfl rfl
    exact ⟨out, hout, hw "a" (by decide) rfl⟩

/-- C6: teardown of an Active workspace handle runs exactly once on scope
exit, on the success path and on every error unwind alike; it performs its
steps in source order — restore the working directory, switch back to the
original branch exactly when HEAD is detached, force-deregister the
worktree, remove the directory — and no failure of any step surfaces to
the caller: the body's outcome is returned unchanged for every oracle. -/
theorem teardown_never_propagates (body : Except String Unit) (o : DropOracle)
    (origRoot : String) (fp : WorktreeFootprint) :
    ((runWithTeardown body o origRoot fp).1 = body) ∧
    ((runWithTeardown body o origRoot fp).2.2 =
      if isDetachedCheck o then
        [DropStep.restoreCwd, DropStep.switchBack, DropStep.removeWorktree, DropStep.removeDir]
      else [DropStep.restoreCwd, DropStep.removeWorktree, DropStep.removeDir]) ∧
    ((runWithTeardown body o origRoot fp).2.2.count DropStep.restoreCwd = 1 ∧
     (runWithTeardown body o origRoot fp).2.2.count DropStep.removeWorktree = 1 ∧
     (runWithTeardown body o origRoot fp).2.2.count DropStep.removeDir = 1) ∧
    ((runWithTeardown body o origRoot fp).2.2.head? = some DropStep.restoreCwd) := by
  by_cases h : isDetachedCheck o <;>
    simp [runWithTeardown, dropTempWorktree, h, List.count_cons, List.count_append]

/-- C8: the binary unstaged diff is materialized only when the quiet
presence check reported differences; when the working tree does not differ
from the index the result is the empty patch with no second diff run; and
whenever the diff output is non-empty on real changes, an empty result
means exactly that no unstaged changes existed. -/
theorem unstaged_capture_guard (o : UnstagedDiffOracle) :
    ((["diff", "--binary"] ∈ (get_unstaged_patch_if_exists o).2) ↔
      o.quietReportsChanges = true) ∧
    (o.quietReportsChanges = false → (get_unstaged_patch_if_exists o).1 = []) ∧
    (o.quietReportsChanges = true →
      (get_unstaged_patch_if_exists o).1 = o.diffBinaryOut) ∧
    ((o.quietReportsChanges = true → o.diffBinaryOut ≠ []) →
      ((get_unstaged_patch_if_exists o).1 = [] ↔ o.quietReportsChanges = false)) := by
  by_cases h : o.quietReportsChanges = true <;>
    simp [get_unstaged_patch_if_exists, h]

/-- Witness for C8: with no unstaged changes the capture returns the empty
patch; with changes and a non-empty diff, the result is not empty. -/
theorem unstaged_capture_guard_witness :
    (get_unstaged_patch_if_exists ⟨false, [1]⟩).1 = [] ∧
    ((get_unstaged_patch_if_exists ⟨true, [1]⟩).1 = [] ↔ False) := by
  constructor
  · exact (unstaged_capture_guard ⟨false, [1]⟩).2.1 rfl
  · have h := (unstaged_capture_guard ⟨true, [1]⟩).2.2.2 (fun _ => by decide)
    rw [h]
    simp

/-- C10: `update_original_worktree_to_pr_branch` restores the working
directory that was current at entry on every return path, success or
error alike (the closure's outcome is handed through unchanged), and
every git invocation it makes is issued while the working directory is
the original root. -/
theorem update_restores_cwd (o : UpdateOracle) (prBranch origRoot cwd0 : String) :
    ((update_original_worktree_to_pr_branch o prBranch origRoot cwd0).2.1 = cwd0) ∧
    (∀ c ∈ (update_original_worktree_to_pr_branch o prBranch origRoot cwd0).2.2,
      c.cwd = origRoot) ∧
    ((update_original_worktree_to_pr_branch o prBranch origRoot cwd0).1 =
      (updateClosure o prBranch).1) := by
  refine ⟨rfl, ?_, rfl⟩
  intro c hc
  simp only [update_original_worktree_to_pr_branch, List.mem_map] at hc
  obtain ⟨args, _, rfl⟩ := hc
  rfl

/-- C1 (code divergence): once `git worktree add` has succeeded, every
error return of `enter()` — branch-chain exhaustion as well as either
patch-apply failure — leaves the secondary checkout registered and its
directory on disk: the source has no cleanup on these paths, because the
guard whose destructor would deregister it is only constructed on full
success. This contradicts the claimed (and specified) cleanup totality. -/
theorem enter_error_leaves_worktree_registered (o : EnterOracle)
    (path origBranch : String) (staged unstaged : Bytes) (ul : String)
    (origFile : String → Option Bytes) (copyOk : String → Bool)
    (fp : WorktreeFootprint) (wt : WtState) (e : String)
    (hadd : o.worktreeAddOk = true)
    (herr : (enterAfterSnapshot o path origBranch staged unstaged ul origFile copyOk fp wt).1 =
      Except.error e) :
    (enterAfterSnapshot o path origBranch staged unstaged ul
        origFile copyOk fp wt).2.registered = true ∧
    (enterAfterSnapshot o path origBranch staged unstaged ul
        origFile copyOk fp wt).2.dirExists = true := by
  unfold enterAfterSnapshot
  simp only [hadd, Bool.true_eq_false, if_false]
  cases hsel : (selectBranch o.run origBranch).2 with
  | error e2 => simp
  | ok u =>
    cases hrep : replaySnapshot o.applyModel staged unstaged ul origFile copyOk wt with
    | error e2 => simp
    | ok out => simp

/-- Witness for C1: a run where registration succeeds and all three branch
switch attempts fail makes `enter()` return the chain-exhaustion error
while the worktree registration and on-disk directory both survive. -/
theorem enter_error_leaves_worktree_registered_witness :
    ((enterAfterSnapshot ⟨true, fun _ => false, ⟨fun _ _ => none, fun _ _ => none⟩⟩
        "wt" "main" [] [] "" (fun _ => none) (fun _ => true)
        ⟨false, false, "repo"⟩ ⟨[], []⟩).1 =
      Except.error ("failed to switch to temp branch " ++ "main")) ∧
    ((enterAfterSnapshot ⟨true, fun _ => false, ⟨fun _ _ => none, fun _ _ => none⟩⟩
        "wt" "main" [] [] "" (fun _ => none) (fun _ => true)
        ⟨false, false, "repo"⟩ ⟨[], []⟩).2.registered = true) ∧
    ((enterAfterSnapshot ⟨true, fun _ => false, ⟨fun _ _ => none, fun _ _ => none⟩⟩
        "wt" "main" [] [] "" (fun _ => none) (fun _ => true)
        ⟨false, false, "repo"⟩ ⟨[], []⟩).2.dirExists = true) := by
  refine ⟨rfl, ?_⟩
  exact enter_error_leaves_worktree_registered _ _ _ _ _ _ _ _ _ _ _ rfl rfl

/-- C2 (code divergence): on a repository where the PR branch exists
locally and the original root carries local changes, the source function
stashes those changes, checks the branch out and pulls — it succeeds while
issuing no `reset` and no `clean` invocation at all, and it has no
`had_staged_changes` selector: the claimed hard-reset / re-apply /
remove-untracked reconciliation is absent from the code. -/
theorem update_stashes_never_resets :
    ((update_original_worktree_to_pr_branch
        ⟨true, "M a.txt", true, true, true, true, true, true, "", true, ""⟩
        "pr-x" "repo" "wt").1 = Except.ok ()) ∧
    (GitCmd.mk "repo" ["stash", "push", "-m", stashMessage] ∈
      (update_original_worktree_to_pr_branch
        ⟨true, "M a.txt", true, true, true, true, true, true, "", true, ""⟩
        "pr-x" "repo" "wt").2.2) ∧
    (GitCmd.mk "repo" ["checkout", "pr-x"] ∈
      (update_original_worktree_to_pr_branch
        ⟨true, "M a.txt", true, true, true, true, true, true, "", true, ""⟩
        "pr-x" "repo" "wt").2.2) ∧
    (∀ c ∈ (update_original_worktree_to_pr_branch
        ⟨true, "M a.txt", true, true, true, true, true, true, "", true, ""⟩
        "pr-x" "repo" "wt").2.2,
      c.args.headI ≠ "reset" ∧ c.args.headI ≠ "clean") := by decide

end GhAutopr
